import Mathlib

/-!
Verification of the Plato emulator's event-driven coordination layer
(`src/emulator.rs`): the dispatcher run loop, the view stack with overlay
children, the update tracker, and the raw-key mapping.

The embedding translates the dispatcher's `match` over events (emulator.rs,
`run`, lines 270-361) into a step function `dispatchEvent` on an explicit
`LoopState`, and the outer queue-draining loop into a fuel-indexed trace
function `runLoopTrace`.  Code of the repository that lives in modules not
present under `src/` (the `view` module's event handlers, `Reader::new`,
`FrontlightWindow::new`, `Notification::new`, `view::common::locate`,
`locate_by_id` and `overlapping_rectangle`, and the `framebuffer` module's
`UpdateMode`) is modelled from the spec, as noted on each definition;
view-specific behaviour is kept abstract as parameters of a `Config`.
-/

/-- Axis-aligned rectangle, from `geom::Rectangle` (min/max corner points). -/
structure Rect where
  xmin : Int
  ymin : Int
  xmax : Int
  ymax : Int
deriving DecidableEq, Repr

/-- Smallest rectangle containing both (the `absorb` operation of `geom`). -/
def Rect.union (r s : Rect) : Rect :=
  ⟨min r.xmin s.xmin, min r.ymin s.ymin, max r.xmax s.xmax, max r.ymax s.ymax⟩

/-- `r` covers `s`: every point of `s` lies inside `r`. -/
def Rect.covers (r s : Rect) : Prop :=
  r.xmin ≤ s.xmin ∧ r.ymin ≤ s.ymin ∧ s.xmax ≤ r.xmax ∧ s.ymax ≤ r.ymax

instance (r s : Rect) : Decidable (Rect.covers r s) := by
  unfold Rect.covers
  exact inferInstance

/-- Direction, from `geom::LinearDir`. -/
inductive LinearDir where
  | Backward
  | Forward
deriving DecidableEq, Repr

/-- Semantic key, from `view::key::KeyKind` (module itself not under `src/`;
modelled from the spec's data model: Shift, Combine, Alternate, Return,
Move(direction), Delete(direction), Output(character)). -/
inductive KeyKind where
  | Shift
  | Combine
  | Alternate
  | Return
  | Move (dir : LinearDir)
  | Delete (dir : LinearDir)
  | Output (c : Char)
deriving DecidableEq, Repr

/-- Display refresh mode, from `framebuffer::UpdateMode` (module not under
`src/`; modelled from the spec: full repaint, fast partial, ghost-compensated,
gui-default).  Only `Gui` is mentioned by the code under `src/`. -/
inductive UpdateMode where
  | Gui
  | Fast
  | Full
  | GhostCompensated
deriving DecidableEq, Repr

/-- Overlay identifier, from `view::ViewId` (module not under `src/`); the
code under `src/` uses `Frontlight` and `TakeScreenshotNotif`, other
identifiers are collapsed into `Named`. -/
inductive ViewId where
  | Frontlight
  | TakeScreenshotNotif
  | Named (n : Nat)
deriving DecidableEq, Repr

/-- Menu entry identifier, from `view::EntryId` (module not under `src/`);
the code under `src/` matches the four listed variants, the rest are
collapsed into `Named`. -/
inductive EntryId where
  | ToggleInverted
  | ToggleMonochrome
  | TakeScreenshot
  | Quit
  | Named (n : Nat)
deriving DecidableEq, Repr

/-- Document descriptor carried by `Open` and `Invalid` events (the
`metadata::Info` payload, module not under `src/`); only its identity
matters here. -/
structure DocInfo where
  id : Nat
deriving DecidableEq, Repr

/-- Event, from `view::Event` as used by `run` in `emulator.rs`. -/
inductive Event where
  | Render (rect : Rect) (mode : UpdateMode)
  | RenderNoWait (rect : Rect) (mode : UpdateMode)
  | Expose (rect : Rect)
  | Open (info : DocInfo)
  | Back
  | Show (id : ViewId)
  | Close (id : ViewId)
  | Select (id : EntryId)
  | Key (k : KeyKind)
  | ClockTick
  | Invalid (info : DocInfo)
deriving DecidableEq, Repr

/-- Runtime kind tag of a view, standing for the concrete widget type used
by `locate::<FrontlightWindow>` style lookups (`view` module not under
`src/`). -/
inductive ViewKind where
  | homeK
  | readerK
  | frontlightWindowK
  | notificationK
  | otherK
deriving DecidableEq, Repr

/-- A view node: kind tag, optional identifier, bounding rectangle, display
text (used by notifications) and owned overlay children, per the spec's data
model of `View` (the polymorphic `view` module is not under `src/`). -/
inductive ViewT where
  | node (kind : ViewKind) (vid : Option ViewId) (rect : Rect)
      (text : String) (children : List ViewT)

def ViewT.kind : ViewT → ViewKind
  | .node k _ _ _ _ => k

def ViewT.vid : ViewT → Option ViewId
  | .node _ i _ _ _ => i

def ViewT.rect : ViewT → Rect
  | .node _ _ r _ _ => r

def ViewT.text : ViewT → String
  | .node _ _ _ t _ => t

def ViewT.children : ViewT → List ViewT
  | .node _ _ _ _ cs => cs

/-- Replace the children list, modelling mutation through `children_mut`. -/
def ViewT.withChildren : ViewT → List ViewT → ViewT
  | .node k i r t _, cs => .node k i r t cs

/-- First index (and node) among `cs` whose kind is `frontlightWindowK`:
`view::common::locate::<FrontlightWindow>` (module not under `src/`;
modelled from the spec: linear search by kind among the active view's
children, front to back). -/
def locateFrontlight : List ViewT → Option (Nat × ViewT)
  | [] => none
  | c :: rest =>
      if c.kind = ViewKind.frontlightWindowK then some (0, c)
      else (locateFrontlight rest).map (fun p => (p.1 + 1, p.2))

/-- First index (and node) among `cs` whose identifier is `id`:
`view::common::locate_by_id` (module not under `src/`; modelled from the
spec: linear search by identifier among the active view's children). -/
def locateById (id : ViewId) : List ViewT → Option (Nat × ViewT)
  | [] => none
  | c :: rest =>
      if c.vid = some id then some (0, c)
      else (locateById id rest).map (fun p => (p.1 + 1, p.2))

/-- Modelled from the spec: `view::common::overlapping_rectangle` is not
under `src/`; per the spec the `Expose` issued on `Close` covers the union
of the closed overlay's rectangle and overlapping sibling rectangles, and
the call site passes the whole active view, so the model takes the union of
the view's rectangle with all of its children's rectangles. -/
def overlapping_rectangle (v : ViewT) : Rect :=
  v.children.foldl (fun r c => r.union c.rect) v.rect

/-- Insert a token into the update tracker, from
`updating.insert(tok, rect)` on an `FnvHashMap`: the new binding replaces
any previous binding of the same token. -/
def insertTok (m : List (Nat × Rect)) (t : Nat) (r : Rect) : List (Nat × Rect) :=
  (t, r) :: m.filter (fun p => decide (p.1 ≠ t))

/-- Look a token up in the update tracker. -/
def lookupTok (m : List (Nat × Rect)) (t : Nat) : Option Rect :=
  (m.find? (fun p => decide (p.1 = t))).map (fun p => p.2)

/-- The tokens currently tracked as outstanding. -/
def trackedTokens (m : List (Nat × Rect)) : List Nat :=
  m.map (fun p => p.1)

/-- `Framebuffer::update` of the emulator's `WindowCanvas`
(emulator.rs lines 144-147): it presents the canvas and always returns
`Ok(1)` - the token does not depend on the rectangle or the mode. -/
def WindowCanvas.update (_rect : Rect) (_mode : UpdateMode) : Except String Nat :=
  Except.ok 1

/-- `Framebuffer::wait` of the emulator's `WindowCanvas`
(emulator.rs lines 149-151): always `Ok(1)`. -/
def WindowCanvas.wait (_tok : Nat) : Except String Int :=
  Except.ok 1

/-- Per-process context fields touched by the dispatcher (`app::Context`,
module not under `src/`; fields modelled from the spec's Shared Context and
the accesses in `run`). -/
structure Settings where
  frontlight : Bool
deriving DecidableEq, Repr

/-- State of the run loop: the history stack and active view of the view
stack, the update tracker, the context fields the dispatcher mutates, a
quit flag (set when `break 'outer` runs), and a log of the events delivered
to the active view through `handle_event`, used to count deliveries. -/
structure LoopState where
  history : List ViewT
  active : ViewT
  updating : List (Nat × Rect)
  settings : Settings
  inverted : Bool
  monochrome : Bool
  notification_index : Nat
  delivered : List Event
  quit : Bool

/-- External collaborators of the dispatcher, kept abstract: construction of
a reading view (`Reader::new`, may fail), the view event-handling contract
(`handle_event`: returns the updated view and the follow-up events it pushed
onto the bus, per the spec's View contract), the frontlight window rectangle
(`FrontlightWindow::new`), the full-screen rectangle `fb_rect`, the
screenshot save result (`Framebuffer::save`), and the wall-clock timestamp
(`Local::now`). -/
structure Config where
  readerNew : DocInfo → Option ViewT
  handleEv : ViewT → Event → ViewT × List Event
  flwRect : Rect
  notifRect : Rect
  fbRect : Rect
  saveResult : Except String Unit
  nowYear : Nat
  nowMonth : Nat
  nowDay : Nat
  nowHour : Nat
  nowMinute : Nat
  nowSecond : Nat

/-- Character for a single decimal digit. -/
def digitChar (n : Nat) : Char :=
  Char.ofNat (48 + n)

/-- Two-digit zero-padded decimal, modelling chrono's `%m`, `%d`, `%H`,
`%M`, `%S` fields on their in-range values (below 100). -/
def pad2 (n : Nat) : List Char :=
  [digitChar (n / 10 % 10), digitChar (n % 10)]

/-- Four-digit zero-padded decimal, modelling chrono's `%Y` field on its
in-range values (below 10000). -/
def pad4 (n : Nat) : List Char :=
  [digitChar (n / 1000 % 10), digitChar (n / 100 % 10),
   digitChar (n / 10 % 10), digitChar (n % 10)]

/-- The screenshot file name built by
`Local::now().format("screenshot-%Y%m%d_%H%M%S.png")`
(emulator.rs line 338), as a function of the wall-clock fields. -/
def screenshotName (cfg : Config) : String :=
  String.mk ("screenshot-".data
    ++ pad4 cfg.nowYear ++ pad2 cfg.nowMonth ++ pad2 cfg.nowDay
    ++ "_".data
    ++ pad2 cfg.nowHour ++ pad2 cfg.nowMinute ++ pad2 cfg.nowSecond
    ++ ".png".data)

/-- Decides whether a string matches the pattern
`screenshot-YYYYMMDD_HHMMSS.png`: the fixed prefix, eight digits, an
underscore, six digits, and the fixed suffix. -/
def isScreenshotPattern (s : String) : Bool :=
  match s.data with
  | 's' :: 'c' :: 'r' :: 'e' :: 'e' :: 'n' :: 's' :: 'h' :: 'o' :: 't' :: '-' ::
    y1 :: y2 :: y3 :: y4 :: mo1 :: mo2 :: d1 :: d2 :: '_' ::
    h1 :: h2 :: mi1 :: mi2 :: s1 :: s2 :: '.' :: 'p' :: 'n' :: 'g' :: [] =>
      [y1, y2, y3, y4, mo1, mo2, d1, d2, h1, h2, mi1, mi2, s1, s2].all Char.isDigit
  | _ => false

/-- The transient notification overlay appended after a screenshot attempt:
`Notification::new(ViewId::TakeScreenshotNotif, msg, ...)` (the
`view::notification` module is not under `src/`; modelled from the spec:
a transient overlay reporting the result, identified for later closing). -/
def screenshotNotif (cfg : Config) (msg : String) : ViewT :=
  ViewT.node ViewKind.notificationK (some ViewId.TakeScreenshotNotif)
    cfg.notifRect msg []

/-- The frontlight window built by `FrontlightWindow::new` (module not
under `src/`; modelled from the spec: an overlay addressable by kind, with
its own rectangle). -/
def frontlightWindow (cfg : Config) : ViewT :=
  ViewT.node ViewKind.frontlightWindowK (some ViewId.Frontlight)
    cfg.flwRect "" []

/-- One dispatcher iteration body: the `match evt` of `run`
(emulator.rs lines 271-356) followed by the bus flush of lines 358-360.
Returns the new state and the list of events sent onto the main queue
during this iteration, in send order: first the dispatcher's own direct
`tx.send` calls, then the flushed bus entries in FIFO order.  The bus is
empty at the start of every iteration (it is drained after each event; the
`continue` of the disabled-frontlight arm skips the drain but also pushes
nothing), so it is represented per-iteration rather than in the state.
The `render`, `render_no_wait` and `fill_crack` helpers are not under
`src/`; per the spec the rendering capability is invoked with the given
rectangle and the token is registered against the exact region requested,
so they are modelled as leaving the rectangle and the tracker unchanged. -/
def dispatchEvent (cfg : Config) (st : LoopState) (evt : Event) :
    LoopState × List Event :=
  match evt with
  | .Render rect mode =>
      match WindowCanvas.update rect mode with
      | .ok tok => ({ st with updating := insertTok st.updating tok rect }, [])
      | .error _ => (st, [])
  | .RenderNoWait rect mode =>
      match WindowCanvas.update rect mode with
      | .ok tok => ({ st with updating := insertTok st.updating tok rect }, [])
      | .error _ => (st, [])
  | .Expose rect =>
      match WindowCanvas.update rect UpdateMode.Gui with
      | .ok tok => ({ st with updating := insertTok st.updating tok rect }, [])
      | .error _ => (st, [])
  | .Open info =>
      match cfg.readerNew info with
      | some r =>
          ({ st with history := st.history ++ [st.active], active := r }, [])
      | none =>
          let h := cfg.handleEv st.active (Event.Invalid info)
          ({ st with active := h.1,
                     delivered := st.delivered ++ [Event.Invalid info] }, h.2)
  | .Back =>
      let popped :=
        match st.history.getLast? with
        | some v => (st.history.dropLast, v)
        | none => (st.history, st.active)
      let h := cfg.handleEv popped.2 Event.Back
      ({ st with history := popped.1, active := h.1,
                 delivered := st.delivered ++ [Event.Back] }, h.2)
  | .Show ViewId.Frontlight =>
      if st.settings.frontlight = false then
        (st, [])
      else
        let flw := frontlightWindow cfg
        ({ st with active :=
             st.active.withChildren (st.active.children ++ [flw]) },
         [Event.Render flw.rect UpdateMode.Gui])
  | .Close ViewId.Frontlight =>
      match locateFrontlight st.active.children with
      | some p =>
          ({ st with active :=
               st.active.withChildren (st.active.children.eraseIdx p.1) },
           [Event.Expose p.2.rect])
      | none => (st, [])
  | .Close id =>
      match locateById id st.active.children with
      | some p =>
          let rect := overlapping_rectangle st.active
          ({ st with active :=
               st.active.withChildren (st.active.children.eraseIdx p.1) },
           [Event.Expose rect])
      | none => (st, [])
  | .Select EntryId.ToggleInverted =>
      ({ st with inverted := !st.inverted },
       [Event.Render cfg.fbRect UpdateMode.Gui])
  | .Select EntryId.ToggleMonochrome =>
      ({ st with monochrome := !st.monochrome },
       [Event.Render cfg.fbRect UpdateMode.Gui])
  | .Select EntryId.TakeScreenshot =>
      let name := screenshotName cfg
      let msg :=
        match cfg.saveResult with
        | .error e => "Couldn\x27t take screenshot: " ++ e ++ ")."
        | .ok _ => "Saved " ++ name ++ "."
      let notif := screenshotNotif cfg msg
      let act := st.active.withChildren (st.active.children ++ [notif])
      ({ st with active := act,
                 notification_index := st.notification_index + 1 }, [])
  | .Select EntryId.Quit =>
      ({ st with quit := true }, [])
  | _ =>
      let h := cfg.handleEv st.active evt
      ({ st with active := h.1, delivered := st.delivered ++ [evt] }, h.2)

/-- Trace of dispatched events: the inner `while let Ok(evt) = rx.recv` loop
of `run`, with the queue made explicit.  Each iteration pops the front of
the queue, dispatches it, and appends every event sent during the iteration
(direct sends, then the flushed bus entries) to the tail of the queue, which
is how `tx.send` enqueues on the mpsc channel.  `break 'outer` stops the
loop. `fuel` bounds the number of iterations. -/
def runLoopTrace (cfg : Config) : Nat → LoopState → List Event → List Event
  | 0, _, _ => []
  | _ + 1, _, [] => []
  | fuel + 1, st, e :: rest =>
      let r := dispatchEvent cfg st e
      if r.1.quit then [e]
      else e :: runLoopTrace cfg fuel r.1 (rest ++ r.2)

/-- Fold a list of already-dequeued events through the dispatcher,
observing only the state (used for view-stack properties, where the events
sent back onto the queue are irrelevant). -/
def dispatchList (cfg : Config) (st : LoopState) (evts : List Event) : LoopState :=
  evts.foldl (fun s e => (dispatchEvent cfg s e).1) st

/-- Which of the two shutdown saves ran. -/
inductive SaveKind where
  | metadata
  | settings
deriving DecidableEq, Repr

/-- The shutdown sequence after the loop exits (emulator.rs lines 364-370):
`save_json(&context.metadata, path).chain_err(...)?;` then
`save_json(&context.settings, path).chain_err(...)?;` then `Ok(())`.
Given the outcome each save would have, returns the saves actually
attempted (in order) and the final result of `run`: the `?` operator
returns early on the first failure. -/
def shutdownSaves (mRes sRes : Except String Unit) :
    List SaveKind × Except String Unit :=
  match mRes with
  | .error e => ([SaveKind.metadata], .error ("Can\x27t save metadata: " ++ e))
  | .ok _ =>
      match sRes with
      | .error e => ([SaveKind.metadata, SaveKind.settings],
                     .error ("Can\x27t save settings: " ++ e))
      | .ok _ => ([SaveKind.metadata, SaveKind.settings], .ok ())

/-- Raw SDL keycode, as matched by `run` (emulator.rs lines 225-260):
the ten keycodes handled by name plus every other keycode, represented by
its SDL name string. -/
inductive Keycode where
  | LShift
  | RShift
  | LAlt
  | RAlt
  | Return
  | Left
  | Right
  | Backspace
  | Delete
  | Escape
  | Other (name : String)
deriving DecidableEq, Repr

/-- Effect of one raw key press on the loop: enqueue a semantic key event,
terminate the loop immediately (the `break` of the `Escape` arm, which never
touches the queue), or do nothing. -/
inductive KeyOutcome where
  | SendKey (k : KeyKind)
  | QuitLoop
  | Ignored
deriving DecidableEq, Repr

/-- The raw-keycode handling of `run` (emulator.rs lines 224-261) as a pure
function.  For an unmatched keycode the code takes its SDL name; when that
name is a single character it sends `Output` of the lowercased character
(`to_lowercase` modelled by `Char.toLower`), otherwise nothing is sent. -/
def mapKeycode : Keycode → KeyOutcome
  | .LShift => .SendKey KeyKind.Shift
  | .RShift => .SendKey KeyKind.Shift
  | .LAlt => .SendKey KeyKind.Combine
  | .RAlt => .SendKey KeyKind.Alternate
  | .Return => .SendKey KeyKind.Return
  | .Left => .SendKey (KeyKind.Move LinearDir.Backward)
  | .Right => .SendKey (KeyKind.Move LinearDir.Forward)
  | .Backspace => .SendKey (KeyKind.Delete LinearDir.Backward)
  | .Delete => .SendKey (KeyKind.Delete LinearDir.Forward)
  | .Escape => .QuitLoop
  | .Other name =>
      match name.data with
      | [c] => .SendKey (KeyKind.Output c.toLower)
      | _ => .Ignored

/-- `r` and `s` overlap: they share an interior point. -/
def Rect.overlaps (r s : Rect) : Prop :=
  r.xmin < s.xmax ∧ s.xmin < r.xmax ∧ r.ymin < s.ymax ∧ s.ymin < r.ymax

instance (r s : Rect) : Decidable (Rect.overlaps r s) := by
  unfold Rect.overlaps
  exact inferInstance

/-- Index of the first occurrence of `e` in a dispatch trace (length of the
trace when `e` does not occur). -/
def firstIdx (e : Event) : List Event → Nat
  | [] => 0
  | x :: rest => if x = e then 0 else firstIdx e rest + 1

/-- Concrete fixtures used by witnesses and counterexamples. -/
def rectA : Rect := ⟨0, 0, 10, 10⟩

def rectB : Rect := ⟨5, 5, 20, 20⟩

def fbRect0 : Rect := ⟨0, 0, 600, 800⟩

/-- A concrete root view (the `Home` view installed at startup). -/
def rootView : ViewT := ViewT.node ViewKind.homeK none fbRect0 "" []

/-- A concrete reading view. -/
def readerView : ViewT := ViewT.node ViewKind.readerK none fbRect0 "" []

/-- A concrete frontlight window overlay. -/
def flwA : ViewT :=
  ViewT.node ViewKind.frontlightWindowK (some ViewId.Frontlight) rectA "" []

/-- A concrete sibling overlay whose rectangle overlaps `rectA` and extends
beyond it. -/
def sibB : ViewT :=
  ViewT.node ViewKind.notificationK (some ViewId.TakeScreenshotNotif) rectB "" []

/-- A concrete configuration: opening document 0 fails, every other
document opens as `readerView`; view handlers deliver events without
mutating the view and push nothing on the bus. -/
def cfg0 : Config where
  readerNew := fun info => if info.id = 0 then none else some readerView
  handleEv := fun v _ => (v, [])
  flwRect := rectA
  notifRect := rectA
  fbRect := fbRect0
  saveResult := Except.ok ()
  nowYear := 2026
  nowMonth := 10
  nowDay := 12
  nowHour := 13
  nowMinute := 37
  nowSecond := 5

/-- Like `cfg0`, but the active view's handler reacts to `ClockTick` by
enqueueing one follow-up event, `Key Shift`, on the bus. -/
def cfg1 : Config :=
  { cfg0 with
    handleEv := fun v e =>
      match e with
      | Event.ClockTick => (v, [Event.Key KeyKind.Shift])
      | _ => (v, []) }

/-- A concrete initial loop state: empty history, `rootView` active, empty
tracker, frontlight setting enabled. -/
def st0 : LoopState where
  history := []
  active := rootView
  updating := []
  settings := ⟨true⟩
  inverted := false
  monochrome := false
  notification_index := 0
  delivered := []
  quit := false

/-- `st0` with the frontlight setting disabled. -/
def st0off : LoopState := { st0 with settings := ⟨false⟩ }

/-- `st0` with two overlays on the active view: a frontlight window over
`rectA` and an overlapping sibling notification over `rectB`. -/
def stC8 : LoopState :=
  { st0 with active := ViewT.node ViewKind.homeK none fbRect0 "" [flwA, sibB] }

/-- A rectangle disjoint from `rectA`. -/
def rectC : Rect := ⟨100, 100, 200, 200⟩

/-- `st0` after one push: `rootView` in history, `readerView` active. -/
def stBack : LoopState := { st0 with history := [rootView], active := readerView }

/-- Children of a view after replacing them. -/
theorem ViewT.children_withChildren (v : ViewT) (cs : List ViewT) :
    (v.withChildren cs).children = cs := by
  cases v
  rfl

theorem Rect.covers_refl (r : Rect) : r.covers r :=
  ⟨le_refl _, le_refl _, le_refl _, le_refl _⟩

theorem Rect.covers_trans {a b c : Rect} (h1 : a.covers b) (h2 : b.covers c) :
    a.covers c := by
  obtain ⟨p1, p2, p3, p4⟩ := h1
  obtain ⟨q1, q2, q3, q4⟩ := h2
  exact ⟨le_trans p1 q1, le_trans p2 q2, le_trans q3 p3, le_trans q4 p4⟩

theorem Rect.union_covers_left (r s : Rect) : (r.union s).covers r :=
  ⟨min_le_left _ _, min_le_left _ _, le_max_left _ _, le_max_left _ _⟩

theorem Rect.union_covers_right (r s : Rect) : (r.union s).covers s :=
  ⟨min_le_right _ _, min_le_right _ _, le_max_right _ _, le_max_right _ _⟩

/-- The folded union grows the initial rectangle. -/
theorem foldl_union_covers_init (l : List ViewT) :
    ∀ a : Rect, (l.foldl (fun r c => r.union c.rect) a).covers a := by
  induction l with
  | nil => intro a; exact Rect.covers_refl a
  | cons c rest ih =>
      intro a
      exact Rect.covers_trans (ih (a.union c.rect)) (Rect.union_covers_left a c.rect)

/-- The folded union covers the rectangle of every listed view. -/
theorem foldl_union_covers_mem {c : ViewT} {l : List ViewT} (h : c ∈ l) :
    ∀ a : Rect, (l.foldl (fun r x => r.union x.rect) a).covers c.rect := by
  induction h with
  | head rest =>
      intro a
      exact Rect.covers_trans (foldl_union_covers_init rest (a.union c.rect))
        (Rect.union_covers_right a c.rect)
  | tail b _ ih =>
      intro a
      exact ih (a.union b.rect)

/-- `overlapping_rectangle` covers every child's rectangle. -/
theorem overlapping_rectangle_covers_child {v : ViewT} {c : ViewT}
    (h : c ∈ v.children) : (overlapping_rectangle v).covers c.rect :=
  foldl_union_covers_mem h v.rect

/-- A view located by identifier is one of the children searched. -/
theorem locateById_mem {id : ViewId} {cs : List ViewT} {p : Nat × ViewT}
    (h : locateById id cs = some p) : p.2 ∈ cs := by
  induction cs generalizing p with
  | nil => cases h
  | cons c rest ih =>
      by_cases hc : c.vid = some id
      · rw [locateById, if_pos hc] at h
        obtain rfl : (0, c) = p := Option.some.inj h
        exact List.mem_cons_self c rest
      · rw [locateById, if_neg hc] at h
        obtain ⟨q, hq, hpq⟩ := Option.map_eq_some'.mp h
        have := ih hq
        rw [← hpq]
        exact List.mem_cons_of_mem c this

/-- A view located by kind is one of the children searched. -/
theorem locateFrontlight_mem {cs : List ViewT} {p : Nat × ViewT}
    (h : locateFrontlight cs = some p) : p.2 ∈ cs := by
  induction cs generalizing p with
  | nil => cases h
  | cons c rest ih =>
      by_cases hc : c.kind = ViewKind.frontlightWindowK
      · rw [locateFrontlight, if_pos hc] at h
        obtain rfl : (0, c) = p := Option.some.inj h
        exact List.mem_cons_self c rest
      · rw [locateFrontlight, if_neg hc] at h
        obtain ⟨q, hq, hpq⟩ := Option.map_eq_some'.mp h
        have := ih hq
        rw [← hpq]
        exact List.mem_cons_of_mem c this

/-- Looking up the freshly inserted token yields the inserted rectangle. -/
theorem lookupTok_insertTok_self (m : List (Nat × Rect)) (t : Nat) (r : Rect) :
    lookupTok (insertTok m t r) t = some r := by
  simp [lookupTok, insertTok, List.find?]

/-- Filtering out bindings of key `u` does not change lookups of `t ≠ u`. -/
theorem find?_filter_ne (m : List (Nat × Rect)) (t u : Nat) (h : t ≠ u) :
    List.find? (fun p => decide (p.1 = t))
        (m.filter (fun p => decide (p.1 ≠ u))) =
      List.find? (fun p => decide (p.1 = t)) m := by
  induction m with
  | nil => rfl
  | cons a rest ih =>
      by_cases ha : a.1 = u
      · have hat : ¬(a.1 = t) := by
          rw [ha]
          exact fun he => h he.symm
        rw [@List.filter_cons_of_neg _ (fun p => decide (p.1 ≠ u)) a rest
              (by simp [ha]),
            @List.find?_cons_of_neg _ (fun p => decide (p.1 = t)) a rest
              (by simp [hat])]
        exact ih
      · rw [@List.filter_cons_of_pos _ (fun p => decide (p.1 ≠ u)) a rest
              (by simp [ha])]
        by_cases hat : a.1 = t
        · rw [@List.find?_cons_of_pos _ (fun p => decide (p.1 = t)) a
                (List.filter (fun p => decide (p.1 ≠ u)) rest) (by simp [hat]),
              @List.find?_cons_of_pos _ (fun p => decide (p.1 = t)) a rest
                (by simp [hat])]
        · rw [@List.find?_cons_of_neg _ (fun p => decide (p.1 = t)) a
                (List.filter (fun p => decide (p.1 ≠ u)) rest) (by simp [hat]),
              @List.find?_cons_of_neg _ (fun p => decide (p.1 = t)) a rest
                (by simp [hat])]
          exact ih

/-- Inserting a binding for `u` does not change lookups of `t ≠ u`. -/
theorem lookupTok_insertTok_ne (m : List (Nat × Rect)) (t u : Nat) (r : Rect)
    (h : t ≠ u) : lookupTok (insertTok m u r) t = lookupTok m t := by
  have hu : ¬(u = t) := fun he => h he.symm
  unfold lookupTok insertTok
  rw [@List.find?_cons_of_neg _ (fun p => decide (p.1 = t)) (u, r)
        (List.filter (fun p => decide (p.1 ≠ u)) m) (by simp [hu]),
      find?_filter_ne m t u h]

/-- The `Back` arm when history ends with `v`: `v` is popped and becomes
active, and `Back` is delivered to it. -/
theorem back_step_concat (cfg : Config) (s : LoopState) (h0 : List ViewT)
    (v : ViewT) (h : s.history = h0 ++ [v]) :
    (dispatchEvent cfg s Event.Back).1.history = h0 ∧
    (dispatchEvent cfg s Event.Back).1.active = (cfg.handleEv v Event.Back).1 ∧
    (dispatchEvent cfg s Event.Back).1.delivered = s.delivered ++ [Event.Back] := by
  simp [dispatchEvent, h, List.getLast?_concat, List.dropLast_concat]

/-- The `Back` arm when history is empty: nothing is popped and `Back` is
delivered to the current active view. -/
theorem back_step_nil (cfg : Config) (s : LoopState) (h : s.history = []) :
    (dispatchEvent cfg s Event.Back).1.history = [] ∧
    (dispatchEvent cfg s Event.Back).1.active =
      (cfg.handleEv s.active Event.Back).1 ∧
    (dispatchEvent cfg s Event.Back).1.delivered = s.delivered ++ [Event.Back] := by
  simp [dispatchEvent, h]

theorem dispatchList_nil (cfg : Config) (st : LoopState) :
    dispatchList cfg st [] = st := rfl

theorem dispatchList_cons (cfg : Config) (st : LoopState) (e : Event)
    (l : List Event) :
    dispatchList cfg st (e :: l) = dispatchList cfg (dispatchEvent cfg st e).1 l := rfl

theorem dispatchList_append (cfg : Config) (st : LoopState) (l1 l2 : List Event) :
    dispatchList cfg st (l1 ++ l2) = dispatchList cfg (dispatchList cfg st l1) l2 := by
  simp [dispatchList, List.foldl_append]

/-- A decimal digit character is a digit. -/
theorem digitChar_mod_isDigit (n : Nat) : (digitChar (n % 10)).isDigit = true := by
  have hb : ∀ m, m < 10 → (digitChar m).isDigit = true := by decide
  exact hb (n % 10) (Nat.mod_lt n (by decide))

/-- The generated screenshot file name always matches the declared pattern
(the wall-clock fields of a real clock lie in the zero-padded range of the
model: month, day, hour, minute, second below 100 and year below 10000). -/
theorem screenshotName_matches (cfg : Config) :
    isScreenshotPattern (screenshotName cfg) = true := by
  have h : isScreenshotPattern (screenshotName cfg) =
      ([digitChar (cfg.nowYear / 1000 % 10), digitChar (cfg.nowYear / 100 % 10),
        digitChar (cfg.nowYear / 10 % 10), digitChar (cfg.nowYear % 10),
        digitChar (cfg.nowMonth / 10 % 10), digitChar (cfg.nowMonth % 10),
        digitChar (cfg.nowDay / 10 % 10), digitChar (cfg.nowDay % 10),
        digitChar (cfg.nowHour / 10 % 10), digitChar (cfg.nowHour % 10),
        digitChar (cfg.nowMinute / 10 % 10), digitChar (cfg.nowMinute % 10),
        digitChar (cfg.nowSecond / 10 % 10), digitChar (cfg.nowSecond % 10)].all
        Char.isDigit) := rfl
  rw [h]
  simp [List.all, digitChar_mod_isDigit]

/-- Claim C1, counterexample.  The handler of `ClockTick` in `cfg1` enqueues
the follow-up `Key Shift` on the bus.  In the initial queue, the event
`Key (Output g)` arrived on the main queue after `ClockTick`.  The bus flush
(emulator.rs lines 358-360) sends follow-ups to the tail of the mpsc queue,
so the dispatch trace is `ClockTick, Key (Output g), Key Shift`: the
follow-up is dispatched after - not strictly before - an event that arrived
on the main queue after its triggering event, refuting the claim as
stated. -/
theorem C1_counterexample :
    runLoopTrace cfg1 10 st0 [Event.ClockTick, Event.Key (KeyKind.Output 'g')] =
      [Event.ClockTick, Event.Key (KeyKind.Output 'g'), Event.Key KeyKind.Shift] ∧
    ¬(firstIdx (Event.Key KeyKind.Shift)
          (runLoopTrace cfg1 10 st0
            [Event.ClockTick, Event.Key (KeyKind.Output 'g')]) <
        firstIdx (Event.Key (KeyKind.Output 'g'))
          (runLoopTrace cfg1 10 st0
            [Event.ClockTick, Event.Key (KeyKind.Output 'g')])) := by
  decide

/-- Claim C1, amended: after any event E is handled, every entry on the
auxiliary bus is flushed in FIFO order onto the TAIL of the main queue, so
E's follow-ups are dispatched strictly after E's own direct effects, after
every event already on the main queue when E was handled, and strictly
before any event that arrives on the main queue after the flush.  The first
conjunct is the loop-step equation (the continuation runs on
`rest` followed by the sent events, so the flush appends after the queued rest);
the remaining conjuncts show that for handler-delivered events (here
`ClockTick`, `Key`, `Invalid`) the flushed list is exactly the handler's
bus pushes, preserving their order. -/
theorem C1_bus_flush_order (cfg : Config) (st : LoopState) (e : Event)
    (rest : List Event) (fuel : Nat)
    (h : (dispatchEvent cfg st e).1.quit = false) :
    runLoopTrace cfg (fuel + 1) st (e :: rest) =
      e :: runLoopTrace cfg fuel (dispatchEvent cfg st e).1
            (rest ++ (dispatchEvent cfg st e).2) ∧
    (dispatchEvent cfg st Event.ClockTick).2 =
      (cfg.handleEv st.active Event.ClockTick).2 ∧
    (∀ k, (dispatchEvent cfg st (Event.Key k)).2 =
      (cfg.handleEv st.active (Event.Key k)).2) ∧
    (∀ i, (dispatchEvent cfg st (Event.Invalid i)).2 =
      (cfg.handleEv st.active (Event.Invalid i)).2) := by
  refine ⟨?_, rfl, fun k => rfl, fun i => rfl⟩
  simp [runLoopTrace, h]

/-- Witness for C1: the amended step equation at a concrete input. -/
theorem C1_bus_flush_order_witness :
    (dispatchEvent cfg1 st0 Event.ClockTick).1.quit = false ∧
    runLoopTrace cfg1 3 st0 [Event.ClockTick, Event.Key (KeyKind.Output 'g')] =
      Event.ClockTick ::
        runLoopTrace cfg1 2 (dispatchEvent cfg1 st0 Event.ClockTick).1
          ([Event.Key (KeyKind.Output 'g')] ++
            (dispatchEvent cfg1 st0 Event.ClockTick).2) :=
  ⟨by decide,
    (C1_bus_flush_order cfg1 st0 Event.ClockTick [Event.Key (KeyKind.Output 'g')] 2
      (by decide)).1⟩

/-- Claim C2, counterexample.  The emulator's display capability always
returns token 1 (emulator.rs lines 144-147).  After a first successful
`Render` of `rectA`, token 1 is tracked as outstanding; a second `Render`
of the disjoint rectangle `rectC` is issued successfully with the same
token 1, which IS equal to a token currently tracked as outstanding, and
its registration replaces the previous entry instead of coexisting with
it. -/
theorem C2_counterexample :
    WindowCanvas.update rectC UpdateMode.Gui = Except.ok 1 ∧
    1 ∈ trackedTokens
        (dispatchEvent cfg0 st0 (Event.Render rectA UpdateMode.Gui)).1.updating ∧
    ¬Rect.overlaps rectA rectC ∧
    trackedTokens
        (dispatchEvent cfg0
          (dispatchEvent cfg0 st0 (Event.Render rectA UpdateMode.Gui)).1
          (Event.Render rectC UpdateMode.Gui)).1.updating = [1] := by
  refine ⟨rfl, by decide, by decide, by decide⟩

/-- Claim C2, amended: for every successful `Render`/`RenderNoWait` issue
the returned token is registered in the Update Tracker against the
requested rectangle, and bindings of other tokens are unchanged; but the
emulator's display capability always returns the constant token 1, so the
new token can equal a token already tracked as outstanding, in which case
registration replaces that entry (uniqueness holds only by
replacement). -/
theorem C2_token_registration (cfg : Config) (st : LoopState) (rect : Rect)
    (mode : UpdateMode) :
    WindowCanvas.update rect mode = Except.ok 1 ∧
    lookupTok (dispatchEvent cfg st (Event.Render rect mode)).1.updating 1 =
      some rect ∧
    lookupTok (dispatchEvent cfg st (Event.RenderNoWait rect mode)).1.updating 1 =
      some rect ∧
    (∀ t, t ≠ 1 →
      lookupTok (dispatchEvent cfg st (Event.Render rect mode)).1.updating t =
        lookupTok st.updating t) ∧
    (∀ t, t ≠ 1 →
      lookupTok (dispatchEvent cfg st (Event.RenderNoWait rect mode)).1.updating t =
        lookupTok st.updating t) := by
  refine ⟨rfl, ?_, ?_, ?_, ?_⟩
  · show lookupTok (insertTok st.updating 1 rect) 1 = some rect
    exact lookupTok_insertTok_self st.updating 1 rect
  · show lookupTok (insertTok st.updating 1 rect) 1 = some rect
    exact lookupTok_insertTok_self st.updating 1 rect
  · intro t ht
    show lookupTok (insertTok st.updating 1 rect) t = lookupTok st.updating t
    exact lookupTok_insertTok_ne st.updating t 1 rect ht
  · intro t ht
    show lookupTok (insertTok st.updating 1 rect) t = lookupTok st.updating t
    exact lookupTok_insertTok_ne st.updating t 1 rect ht

/-- Witness for C2's amended theorem at a concrete input. -/
theorem C2_token_registration_witness :
    (2 : Nat) ≠ 1 ∧
    lookupTok (dispatchEvent cfg0 st0 (Event.Render rectA UpdateMode.Gui)).1.updating 2 =
      lookupTok st0.updating 2 :=
  ⟨by decide,
    (C2_token_registration cfg0 st0 rectA UpdateMode.Gui).2.2.2.1 2 (by decide)⟩

/-- Claim C3, counterexample.  The shutdown sequence (emulator.rs lines
364-368) uses the early-returning `?` operator: when the metadata save
fails, `run` returns that error at once and the settings save is never
attempted, refuting the claimed independence of the two saves. -/
theorem C3_counterexample :
    shutdownSaves (Except.error "io") (Except.ok ()) =
      ([SaveKind.metadata], Except.error "Can\x27t save metadata: io") ∧
    SaveKind.settings ∉ (shutdownSaves (Except.error "io") (Except.ok ())).1 := by
  refine ⟨rfl, by decide⟩

/-- Claim C3, amended: after the run loop exits the metadata save is
attempted first; if it fails, its error is propagated as the final error of
`run` and the settings save is NOT attempted; only if the metadata save
succeeds is the settings save attempted, and then its failure, if any, is
the final error. -/
theorem C3_shutdown_saves (m s : Except String Unit) :
    SaveKind.metadata ∈ (shutdownSaves m s).1 ∧
    (∀ e, m = Except.error e →
      shutdownSaves m s =
        ([SaveKind.metadata], Except.error ("Can\x27t save metadata: " ++ e))) ∧
    (∀ u, m = Except.ok u →
      SaveKind.settings ∈ (shutdownSaves m s).1 ∧
      (∀ e, s = Except.error e →
        (shutdownSaves m s).2 = Except.error ("Can\x27t save settings: " ++ e)) ∧
      (∀ u2, s = Except.ok u2 → (shutdownSaves m s).2 = Except.ok ())) := by
  cases m with
  | error e => simp [shutdownSaves]
  | ok u =>
      cases s with
      | error e => simp [shutdownSaves]
      | ok u2 => simp [shutdownSaves]

/-- Witness for C3's amended theorem: a failing metadata save at a concrete
input. -/
theorem C3_shutdown_saves_witness :
    (Except.error "io" : Except String Unit) = Except.error "io" ∧
    shutdownSaves (Except.error "io") (Except.ok ()) =
      ([SaveKind.metadata], Except.error ("Can\x27t save metadata: " ++ "io")) :=
  ⟨rfl, (C3_shutdown_saves (Except.error "io") (Except.ok ())).2.1 "io" rfl⟩

/-- Claim C4: for an `Open(info)` event whose reading-view construction
fails, the history stack is not pushed, the active view is not replaced (it
only receives the redelivered event through its own handler), and exactly
one `Invalid(info)` event with the same document info is delivered to the
current active view; on success, the current active view is pushed onto
history, the new reading view becomes active, and nothing is delivered. -/
theorem C4_open_failure (cfg : Config) (st : LoopState) (info : DocInfo) :
    (cfg.readerNew info = none →
      (dispatchEvent cfg st (Event.Open info)).1.history = st.history ∧
      (dispatchEvent cfg st (Event.Open info)).1.active =
        (cfg.handleEv st.active (Event.Invalid info)).1 ∧
      (dispatchEvent cfg st (Event.Open info)).1.delivered =
        st.delivered ++ [Event.Invalid info]) ∧
    (∀ v, cfg.readerNew info = some v →
      (dispatchEvent cfg st (Event.Open info)).1.history =
        st.history ++ [st.active] ∧
      (dispatchEvent cfg st (Event.Open info)).1.active = v ∧
      (dispatchEvent cfg st (Event.Open info)).1.delivered = st.delivered) := by
  constructor
  · intro h
    simp [dispatchEvent, h]
  · intro v h
    simp [dispatchEvent, h]

/-- Witness for C4 at concrete inputs: document 0 fails to open, document 1
opens as `readerView`. -/
theorem C4_open_failure_witness :
    (cfg0.readerNew ⟨0⟩ = none ∧
      (dispatchEvent cfg0 st0 (Event.Open ⟨0⟩)).1.history = st0.history ∧
      (dispatchEvent cfg0 st0 (Event.Open ⟨0⟩)).1.active =
        (cfg0.handleEv st0.active (Event.Invalid ⟨0⟩)).1 ∧
      (dispatchEvent cfg0 st0 (Event.Open ⟨0⟩)).1.delivered =
        st0.delivered ++ [Event.Invalid ⟨0⟩]) ∧
    (cfg0.readerNew ⟨1⟩ = some readerView ∧
      (dispatchEvent cfg0 st0 (Event.Open ⟨1⟩)).1.history =
        st0.history ++ [st0.active] ∧
      (dispatchEvent cfg0 st0 (Event.Open ⟨1⟩)).1.active = readerView ∧
      (dispatchEvent cfg0 st0 (Event.Open ⟨1⟩)).1.delivered = st0.delivered) :=
  ⟨⟨rfl, (C4_open_failure cfg0 st0 ⟨0⟩).1 rfl⟩,
    ⟨rfl, (C4_open_failure cfg0 st0 ⟨1⟩).2 readerView rfl⟩⟩

/-- Claim C5: on `Back` with non-empty history, the most recently pushed
view is popped and becomes active (then receives the `Back` event through
its handler); with empty history, history and the active view are unchanged
except that `Back` is still delivered to the current active view.  In both
cases exactly one `Back` is delivered. -/
theorem C5_back (cfg : Config) (st : LoopState) :
    (st.history = [] →
      (dispatchEvent cfg st Event.Back).1.history = [] ∧
      (dispatchEvent cfg st Event.Back).1.active =
        (cfg.handleEv st.active Event.Back).1 ∧
      (dispatchEvent cfg st Event.Back).1.delivered =
        st.delivered ++ [Event.Back]) ∧
    (∀ hist v, st.history = hist ++ [v] →
      (dispatchEvent cfg st Event.Back).1.history = hist ∧
      (dispatchEvent cfg st Event.Back).1.active =
        (cfg.handleEv v Event.Back).1 ∧
      (dispatchEvent cfg st Event.Back).1.delivered =
        st.delivered ++ [Event.Back]) := by
  constructor
  · intro h
    exact back_step_nil cfg st h
  · intro hist v h
    exact back_step_concat cfg st hist v h

/-- Witness for C5: `Back` on empty history at `st0` and on a singleton
history at `stBack`. -/
theorem C5_back_witness :
    (st0.history = [] ∧
      (dispatchEvent cfg0 st0 Event.Back).1.history = [] ∧
      (dispatchEvent cfg0 st0 Event.Back).1.active =
        (cfg0.handleEv st0.active Event.Back).1 ∧
      (dispatchEvent cfg0 st0 Event.Back).1.delivered =
        st0.delivered ++ [Event.Back]) ∧
    (stBack.history = [] ++ [rootView] ∧
      (dispatchEvent cfg0 stBack Event.Back).1.history = [] ∧
      (dispatchEvent cfg0 stBack Event.Back).1.active =
        (cfg0.handleEv rootView Event.Back).1 ∧
      (dispatchEvent cfg0 stBack Event.Back).1.delivered =
        stBack.delivered ++ [Event.Back]) :=
  ⟨⟨rfl, (C5_back cfg0 st0).1 rfl⟩,
    ⟨rfl, (C5_back cfg0 stBack).2 [] rootView rfl⟩⟩

/-- Claim C7: the raw-keycode handling is a pure function following the
declared table exactly: Shift keys map to `Shift`, left-Alt to `Combine`,
right-Alt to `Alternate`, Enter to `Return`, Left/Right arrows to
`Move(Backward/Forward)`, Backspace to `Delete(Backward)`, Delete to
`Delete(Forward)`, Escape terminates the loop immediately without going
through the queue, any other single-glyph key maps to `Output` of the
lowercased glyph, and every other key produces no event. -/
theorem C7_key_mapping :
    mapKeycode Keycode.LShift = KeyOutcome.SendKey KeyKind.Shift ∧
    mapKeycode Keycode.RShift = KeyOutcome.SendKey KeyKind.Shift ∧
    mapKeycode Keycode.LAlt = KeyOutcome.SendKey KeyKind.Combine ∧
    mapKeycode Keycode.RAlt = KeyOutcome.SendKey KeyKind.Alternate ∧
    mapKeycode Keycode.Return = KeyOutcome.SendKey KeyKind.Return ∧
    mapKeycode Keycode.Left = KeyOutcome.SendKey (KeyKind.Move LinearDir.Backward) ∧
    mapKeycode Keycode.Right = KeyOutcome.SendKey (KeyKind.Move LinearDir.Forward) ∧
    mapKeycode Keycode.Backspace =
      KeyOutcome.SendKey (KeyKind.Delete LinearDir.Backward) ∧
    mapKeycode Keycode.Delete =
      KeyOutcome.SendKey (KeyKind.Delete LinearDir.Forward) ∧
    mapKeycode Keycode.Escape = KeyOutcome.QuitLoop ∧
    (∀ c : Char, mapKeycode (Keycode.Other (String.mk [c])) =
      KeyOutcome.SendKey (KeyKind.Output c.toLower)) ∧
    (∀ s : String, s.data.length ≠ 1 →
      mapKeycode (Keycode.Other s) = KeyOutcome.Ignored) := by
  refine ⟨rfl, rfl, rfl, rfl, rfl, rfl, rfl, rfl, rfl, rfl, fun c => rfl, ?_⟩
  intro s h
  obtain ⟨l⟩ := s
  cases l with
  | nil => rfl
  | cons c rest =>
      cases rest with
      | nil => exact absurd rfl h
      | cons d rest2 => rfl

/-- Witness for C7: a single-glyph key and a multi-glyph key at concrete
inputs. -/
theorem C7_key_mapping_witness :
    mapKeycode (Keycode.Other (String.mk ['A'])) =
      KeyOutcome.SendKey (KeyKind.Output 'a') ∧
    ((String.mk ['F', '1']).data.length ≠ 1 ∧
      mapKeycode (Keycode.Other (String.mk ['F', '1'])) = KeyOutcome.Ignored) :=
  ⟨by
    have h := C7_key_mapping.2.2.2.2.2.2.2.2.2.2.1 'A'
    have e : 'A'.toLower = 'a' := by decide
    rw [e] at h
    exact h,
   ⟨by decide,
    C7_key_mapping.2.2.2.2.2.2.2.2.2.2.2 (String.mk ['F', '1']) (by decide)⟩⟩

/-- Claim C10: a `Show(Frontlight)` event dispatched while the context's
frontlight setting is disabled is silently discarded: the state (children
included) is unchanged and no event - in particular no `Render` - is
sent. -/
theorem C10_show_frontlight_disabled (cfg : Config) (st : LoopState)
    (h : st.settings.frontlight = false) :
    dispatchEvent cfg st (Event.Show ViewId.Frontlight) = (st, []) := by
  simp [dispatchEvent, h]

/-- Witness for C10 at a concrete state with the frontlight setting off. -/
theorem C10_show_frontlight_disabled_witness :
    st0off.settings.frontlight = false ∧
    dispatchEvent cfg0 st0off (Event.Show ViewId.Frontlight) = (st0off, []) :=
  ⟨rfl, C10_show_frontlight_disabled cfg0 st0off rfl⟩

/-- Folding `n` successful `Open`s then `n` `Back`s leaves history as it
was; the final active view is the original active view as updated by the
single `Back` it receives on the last pop (or untouched when `n = 0`). -/
theorem openThenBack_aux (cfg : Config) (infos : List DocInfo) :
    ∀ st : LoopState,
      (∀ i ∈ infos, (cfg.readerNew i).isSome = true) →
      (dispatchList cfg st (infos.map Event.Open ++
          List.replicate infos.length Event.Back)).history = st.history ∧
      (dispatchList cfg st (infos.map Event.Open ++
          List.replicate infos.length Event.Back)).active =
        (if infos.isEmpty then st.active
         else (cfg.handleEv st.active Event.Back).1) := by
  induction infos with
  | nil =>
      intro st _
      simp [dispatchList]
  | cons i rest ih =>
      intro st h
      obtain ⟨r, hr⟩ :=
        Option.isSome_iff_exists.mp (h i (List.mem_cons_self i rest))
      have hrest : ∀ j ∈ rest, (cfg.readerNew j).isSome = true :=
        fun j hj => h j (List.mem_cons_of_mem i hj)
      have hlist : (i :: rest).map Event.Open ++
          List.replicate (i :: rest).length Event.Back =
          Event.Open i :: ((rest.map Event.Open ++
            List.replicate rest.length Event.Back) ++ [Event.Back]) := by
        simp [List.replicate_succ']
      rw [hlist, dispatchList_cons]
      have hstep : (dispatchEvent cfg st (Event.Open i)).1 =
          { st with history := st.history ++ [st.active], active := r } := by
        simp [dispatchEvent, hr]
      rw [hstep, dispatchList_append]
      obtain ⟨hh, _⟩ :=
        ih { st with history := st.history ++ [st.active], active := r } hrest
      rw [dispatchList_cons, dispatchList_nil]
      have hb := back_step_concat cfg
        (dispatchList cfg
          { st with history := st.history ++ [st.active], active := r }
          (rest.map Event.Open ++ List.replicate rest.length Event.Back))
        st.history st.active (by rw [hh])
      refine ⟨hb.1, ?_⟩
      rw [hb.2.1]
      simp

/-- Claim C6: for every sequence of `n` `Open` events that each construct a
reading view successfully, followed by `n` `Back` events, the active view
is again the original root view and the history depth is again 0 (the root
view's handler leaving it unchanged under the mandated `Back` redelivery,
as the spec's resynchronize-by-refresh contract prescribes). -/
theorem C6_open_back_roundtrip (cfg : Config) (st : LoopState)
    (infos : List DocInfo) (h0 : st.history = [])
    (hs : ∀ i ∈ infos, (cfg.readerNew i).isSome = true)
    (hpres : (cfg.handleEv st.active Event.Back).1 = st.active) :
    (dispatchList cfg st (infos.map Event.Open ++
        List.replicate infos.length Event.Back)).history = [] ∧
    (dispatchList cfg st (infos.map Event.Open ++
        List.replicate infos.length Event.Back)).active = st.active := by
  obtain ⟨hh, ha⟩ := openThenBack_aux cfg infos st hs
  refine ⟨by rw [hh, h0], ?_⟩
  rw [ha]
  cases infos with
  | nil => simp
  | cons i rest => simp [hpres]

/-- Witness for C6: two successful opens followed by two backs at concrete
inputs. -/
theorem C6_open_back_roundtrip_witness :
    (st0.history = [] ∧
      (∀ i ∈ [(⟨1⟩ : DocInfo), ⟨2⟩], (cfg0.readerNew i).isSome = true) ∧
      (cfg0.handleEv st0.active Event.Back).1 = st0.active) ∧
    (dispatchList cfg0 st0 ([(⟨1⟩ : DocInfo), ⟨2⟩].map Event.Open ++
        List.replicate ([(⟨1⟩ : DocInfo), ⟨2⟩] : List DocInfo).length
          Event.Back)).history = [] ∧
    (dispatchList cfg0 st0 ([(⟨1⟩ : DocInfo), ⟨2⟩].map Event.Open ++
        List.replicate ([(⟨1⟩ : DocInfo), ⟨2⟩] : List DocInfo).length
          Event.Back)).active = st0.active :=
  ⟨⟨rfl, by decide, rfl⟩,
    C6_open_back_roundtrip cfg0 st0 [⟨1⟩, ⟨2⟩] rfl (by decide) rfl⟩

/-- Claim C8, counterexample.  With a frontlight window over `rectA` and an
overlapping sibling notification over `rectB`, `Close(Frontlight)` issues
exactly one `Expose` over `rectA` alone (emulator.rs lines 313-318), which
does not cover the union of the overlay's prior rectangle with the
overlapping sibling rectangle, refuting the claimed union coverage. -/
theorem C8_counterexample :
    Rect.overlaps rectA rectB ∧
    (dispatchEvent cfg0 stC8 (Event.Close ViewId.Frontlight)).2 =
      [Event.Expose rectA] ∧
    ¬Rect.covers rectA (Rect.union rectA rectB) := by
  refine ⟨by decide, rfl, by decide⟩

/-- Claim C8, amended: every `Close` event that locates an overlay among
the active view's children removes it and issues exactly one `Expose`
covering at least the overlay's own prior rectangle; for
`Close(Frontlight)` the exposed rectangle is exactly the overlay's prior
rectangle (not necessarily the union with overlapping siblings), while for
`Close` by identifier it is the overlapping rectangle of the whole active
view, which covers the overlay's prior rectangle. -/
theorem C8_close_expose (cfg : Config) (st : LoopState) :
    (∀ p, locateFrontlight st.active.children = some p →
      (dispatchEvent cfg st (Event.Close ViewId.Frontlight)).2 =
        [Event.Expose p.2.rect] ∧
      (dispatchEvent cfg st (Event.Close ViewId.Frontlight)).1.active =
        st.active.withChildren (st.active.children.eraseIdx p.1) ∧
      Rect.covers p.2.rect p.2.rect) ∧
    (∀ id p, id ≠ ViewId.Frontlight →
      locateById id st.active.children = some p →
      (dispatchEvent cfg st (Event.Close id)).2 =
        [Event.Expose (overlapping_rectangle st.active)] ∧
      (dispatchEvent cfg st (Event.Close id)).1.active =
        st.active.withChildren (st.active.children.eraseIdx p.1) ∧
      Rect.covers (overlapping_rectangle st.active) p.2.rect) := by
  constructor
  · intro p hp
    refine ⟨?_, ?_, Rect.covers_refl _⟩ <;> simp [dispatchEvent, hp]
  · intro id p hne hp
    have hcov : (overlapping_rectangle st.active).covers p.2.rect :=
      overlapping_rectangle_covers_child (locateById_mem hp)
    cases id with
    | Frontlight => exact absurd rfl hne
    | TakeScreenshotNotif =>
        refine ⟨?_, ?_, hcov⟩ <;> simp [dispatchEvent, hp]
    | Named n =>
        refine ⟨?_, ?_, hcov⟩ <;> simp [dispatchEvent, hp]

/-- Witness for C8: closing the frontlight window and closing the
notification by identifier at a concrete state. -/
theorem C8_close_expose_witness :
    (locateFrontlight stC8.active.children = some (0, flwA) ∧
      (dispatchEvent cfg0 stC8 (Event.Close ViewId.Frontlight)).2 =
        [Event.Expose ((0, flwA) : Nat × ViewT).2.rect] ∧
      (dispatchEvent cfg0 stC8 (Event.Close ViewId.Frontlight)).1.active =
        stC8.active.withChildren
          (stC8.active.children.eraseIdx ((0, flwA) : Nat × ViewT).1) ∧
      Rect.covers ((0, flwA) : Nat × ViewT).2.rect
        ((0, flwA) : Nat × ViewT).2.rect) ∧
    (ViewId.TakeScreenshotNotif ≠ ViewId.Frontlight ∧
      locateById ViewId.TakeScreenshotNotif stC8.active.children =
        some (1, sibB) ∧
      (dispatchEvent cfg0 stC8 (Event.Close ViewId.TakeScreenshotNotif)).2 =
        [Event.Expose (overlapping_rectangle stC8.active)] ∧
      (dispatchEvent cfg0 stC8
          (Event.Close ViewId.TakeScreenshotNotif)).1.active =
        stC8.active.withChildren
          (stC8.active.children.eraseIdx ((1, sibB) : Nat × ViewT).1) ∧
      Rect.covers (overlapping_rectangle stC8.active)
        ((1, sibB) : Nat × ViewT).2.rect) :=
  ⟨⟨rfl, (C8_close_expose cfg0 stC8).1 (0, flwA) rfl⟩,
    ⟨by decide, rfl,
      (C8_close_expose cfg0 stC8).2 ViewId.TakeScreenshotNotif (1, sibB)
        (by decide) rfl⟩⟩

/-- Claim C9: on `Select(take-screenshot)`, whether the snapshot save
succeeds or fails, exactly one transient notification overlay reporting
the result is appended to the active view's children, the target file name
matches the pattern `screenshot-YYYYMMDD_HHMMSS.png`, the quit flag is
untouched (a save failure does not terminate the process), and the
notification counter is advanced to mint a fresh identifier.  (The
formatting model is faithful to chrono for the field ranges a real clock
produces: year below 10000, the other fields below 100.) -/
theorem C9_screenshot (cfg : Config) (st : LoopState) :
    (dispatchEvent cfg st (Event.Select EntryId.TakeScreenshot)).1.active.children =
      st.active.children ++
        [screenshotNotif cfg
          (match cfg.saveResult with
           | Except.error e => "Couldn\x27t take screenshot: " ++ e ++ ")."
           | Except.ok _ => "Saved " ++ screenshotName cfg ++ ".")] ∧
    (dispatchEvent cfg st (Event.Select EntryId.TakeScreenshot)).1.quit =
      st.quit ∧
    (dispatchEvent cfg st
        (Event.Select EntryId.TakeScreenshot)).1.notification_index =
      st.notification_index + 1 ∧
    isScreenshotPattern (screenshotName cfg) = true := by
  refine ⟨?_, rfl, rfl, screenshotName_matches cfg⟩
  cases hr : cfg.saveResult with
  | error e => simp [dispatchEvent, hr, ViewT.children_withChildren]
  | ok u => simp [dispatchEvent, hr, ViewT.children_withChildren]
